import Mathlib

/-!
Shallow embedding of `train.py` (resnet-cifar-tpu).

The script is glue code over torch / torchvision / lightning.  Its own
content is: two module-level constants (`PATH_DATASETS`, `BATCH_SIZE`),
a CIFAR10 datamodule (download, 45000+5000 split, three dataloaders),
a commented-out MNIST datamodule (55000+5000 split), a `LitModel`
wrapping a resnet20 backbone (forward = log_softmax of the backbone
scores, nll loss per step, accuracy in the validation step, Adam
optimizer), and a top-level construction `dm = CIFAR10DataModule()`
followed by `trainer.fit(model, dm)`.

Library semantics used by the embedding (the libraries are external to
the repository):
* a torchvision dataset is represented by its list of sample indices in
  on-disk order (`List.range size`); CIFAR10 has 50000 train / 10000
  test samples, MNIST 60000 train / 10000 test samples;
* `torch.utils.data.random_split(ds, lengths)` draws a random
  permutation of the dataset indices and cuts it at the given lengths;
  the permutation is passed explicitly as a `perm` argument, with the
  validity condition `perm.Perm (List.range ds.length)` assumed where
  needed;
* `torch.utils.data.DataLoader(ds, batch_size=b)` keeps the library
  defaults `shuffle=False` and `drop_last=False`: iteration yields the
  dataset in index order, cut into consecutive batches of `b` samples
  with a final shorter batch when `b` does not divide the length;
* `F.log_softmax(x, dim=1)` applies a transcendental per-row map
  (`x i - log (sum j, exp (x j))`); it is abstracted as an explicit
  row-function argument `ls` of the step embeddings;
* scalar tensor arithmetic is modelled exactly over `ℚ`.

Effects (downloads, metric logging) are made explicit as returned data.
-/

/-- Line 22: `PATH_DATASETS = os.environ.get("PATH_DATASETS", ".")`.
The process environment is passed as a lookup function. -/
def PATH_DATASETS (env : String → Option String) : String :=
  (env "PATH_DATASETS").getD "."

/-- Line 23: `BATCH_SIZE = 256 if torch.cuda.is_available() else 64`.
CUDA availability is passed as a flag. -/
def BATCH_SIZE (cuda_available : Bool) : Nat :=
  if cuda_available then 256 else 64

/-- Sizes of the torchvision CIFAR10 dataset: 50000 training samples,
10000 test samples (external library data; the spec states the split
arithmetic 45000+5000=50000 over the training portion). -/
def CIFAR10.size (train : Bool) : Nat := if train then 50000 else 10000

/-- The CIFAR10 dataset loaded from `data_dir`, as its list of sample
indices in on-disk order. -/
def CIFAR10.load (_data_dir : String) (train : Bool) : List Nat :=
  List.range (CIFAR10.size train)

/-- Sizes of the torchvision MNIST dataset: 60000 training samples,
10000 test samples (external library data; the spec states the split
arithmetic 55000+5000=60000 over the training portion). -/
def MNIST.size (train : Bool) : Nat := if train then 60000 else 10000

/-- The MNIST dataset loaded from `data_dir`, as its list of sample
indices in on-disk order. -/
def MNIST.load (_data_dir : String) (train : Bool) : List Nat :=
  List.range (MNIST.size train)

/-- Cut a list into consecutive pieces of the given lengths. -/
def splitChunks {α : Type} : List Nat → List α → List (List α)
  | [], _ => []
  | n :: ns, l => l.take n :: splitChunks ns (l.drop n)

/-- `torch.utils.data.random_split(dataset, lengths)`: draws a random
permutation of the dataset's indices and cuts it at the given lengths,
returning one index subset per requested length.  The permutation is the
explicit `perm` argument; a valid call has `perm.Perm (List.range
dataset.length)`, which theorems assume as a hypothesis. -/
def random_split (_dataset : List Nat) (lengths : List Nat) (perm : List Nat) :
    List (List Nat) :=
  splitChunks lengths perm

/-- A record of one dataset download request: the filesystem root it was
issued for and which portion (train or test) was requested. -/
structure Download where
  root : String
  train : Bool
deriving DecidableEq

/-- `torch.utils.data.DataLoader(dataset, batch_size=...)` as constructed by
this script: the wrapped dataset (as its index list), the batch size, and
the `shuffle` flag (the script never passes it, so it is the library
default `False`). -/
structure DataLoader where
  dataset : List Nat
  batch_size : Nat
  shuffle : Bool
deriving DecidableEq

/-- Consecutive batches of size `bs` of a list; the final batch is shorter
when `bs` does not divide the length (DataLoader default
`drop_last=False`).  `bs = 0` is rejected by the library; the embedding
returns `[]` there. -/
def chunks {α : Type} (bs : Nat) : List α → List (List α)
  | [] => []
  | a :: l =>
    if bs = 0 then []
    else (a :: l.take (bs - 1)) :: chunks bs (l.drop (bs - 1))
termination_by l => l.length
decreasing_by simp only [List.length_drop, List.length_cons]; omega

/-- One full iteration pass over a DataLoader: the sequence of batches it
yields.  `order` is the random sample order the loader would draw for this
pass; it is consulted only when `shuffle` is set. -/
def DataLoader.batches (self : DataLoader) (order : List Nat) : List (List Nat) :=
  chunks self.batch_size
    (if self.shuffle then order.map (fun i => self.dataset.getD i 0) else self.dataset)

/-- State of `CIFAR10DataModule` (train.py lines 159-195).  The three
dataset attributes start out absent (`none`) and are assigned by `setup`;
each holds the subset as a list of dataset indices in iteration order. -/
structure CIFAR10DataModule where
  data_dir : String
  dims : Nat × Nat × Nat
  num_classes : Nat
  cifar_train : Option (List Nat) := none
  cifar_val : Option (List Nat) := none
  cifar_test : Option (List Nat) := none
deriving DecidableEq

/-- `CIFAR10DataModule.__init__` (lines 160-171): `data_dir` defaults to
`"./"`; sets `dims = (3, 32, 32)` and `num_classes = 10`.  The transform
pipeline (ToTensor, per-channel Normalize) acts on sample values, which the
index-list dataset representation does not carry. -/
def CIFAR10DataModule.init (data_dir : String := "./") : CIFAR10DataModule :=
  { data_dir := data_dir, dims := (3, 32, 32), num_classes := 10 }

/-- `CIFAR10DataModule.prepare_data` (lines 173-176): downloads the train
and test portions under `self.data_dir` and assigns nothing; the result is
the (unchanged) state together with the issued download requests. -/
def CIFAR10DataModule.prepare_data (self : CIFAR10DataModule) :
    CIFAR10DataModule × List Download :=
  (self, [{ root := self.data_dir, train := true },
          { root := self.data_dir, train := false }])

/-- `CIFAR10DataModule.setup` (lines 178-186): for stage `"fit"` or `None`,
loads the full training set and assigns `cifar_train`, `cifar_val` from
`random_split(cifar_full, [45000, 5000])`; for stage `"test"` or `None`,
assigns `cifar_test` to the test set.  `perm` is the random permutation
drawn by `random_split`. -/
def CIFAR10DataModule.setup (self : CIFAR10DataModule) (stage : Option String)
    (perm : List Nat) : CIFAR10DataModule :=
  let afterFit :=
    if stage = some "fit" ∨ stage = none then
      let cifar_full := CIFAR10.load self.data_dir true
      let split := random_split cifar_full [45000, 5000] perm
      { self with cifar_train := some (split.getD 0 []),
                  cifar_val := some (split.getD 1 []) }
    else self
  if stage = some "test" ∨ stage = none then
    { afterFit with cifar_test := some (CIFAR10.load self.data_dir false) }
  else afterFit

/-- `CIFAR10DataModule.train_dataloader` (lines 188-189):
`DataLoader(self.cifar_train, batch_size=BATCH_SIZE)`.  `none` when
`cifar_train` was never assigned (an `AttributeError` in the source). -/
def CIFAR10DataModule.train_dataloader (self : CIFAR10DataModule)
    (cuda_available : Bool) : Option DataLoader :=
  self.cifar_train.map fun d =>
    { dataset := d, batch_size := BATCH_SIZE cuda_available, shuffle := false }

/-- `CIFAR10DataModule.val_dataloader` (lines 191-192). -/
def CIFAR10DataModule.val_dataloader (self : CIFAR10DataModule)
    (cuda_available : Bool) : Option DataLoader :=
  self.cifar_val.map fun d =>
    { dataset := d, batch_size := BATCH_SIZE cuda_available, shuffle := false }

/-- `CIFAR10DataModule.test_dataloader` (lines 194-195). -/
def CIFAR10DataModule.test_dataloader (self : CIFAR10DataModule)
    (cuda_available : Bool) : Option DataLoader :=
  self.cifar_test.map fun d =>
    { dataset := d, batch_size := BATCH_SIZE cuda_available, shuffle := false }

/-- State of `MNISTDataModule`.  Its definition (train.py lines 57-93) is
entirely commented out in the source; it is embedded here so the split
arithmetic of both adapters can be compared, but it is not part of the
executable script (see `definedAdapters`). -/
structure MNISTDataModule where
  data_dir : String
  dims : Nat × Nat × Nat
  num_classes : Nat
  mnist_train : Option (List Nat) := none
  mnist_val : Option (List Nat) := none
  mnist_test : Option (List Nat) := none
deriving DecidableEq

/-- `MNISTDataModule.__init__` from the commented-out block (lines 58-69):
`data_dir` defaults to `PATH_DATASETS`; `dims = (1, 28, 28)`,
`num_classes = 10`. -/
def MNISTDataModule.init (env : String → Option String)
    (data_dir : Option String := none) : MNISTDataModule :=
  { data_dir := data_dir.getD (PATH_DATASETS env),
    dims := (1, 28, 28), num_classes := 10 }

/-- `MNISTDataModule.setup` from the commented-out block (lines 76-84):
`random_split(mnist_full, [55000, 5000])` for stage `"fit"`/`None`, test
set assignment for stage `"test"`/`None`. -/
def MNISTDataModule.setup (self : MNISTDataModule) (stage : Option String)
    (perm : List Nat) : MNISTDataModule :=
  let afterFit :=
    if stage = some "fit" ∨ stage = none then
      let mnist_full := MNIST.load self.data_dir true
      let split := random_split mnist_full [55000, 5000] perm
      { self with mnist_train := some (split.getD 0 []),
                  mnist_val := some (split.getD 1 []) }
    else self
  if stage = some "test" ∨ stage = none then
    { afterFit with mnist_test := some (MNIST.load self.data_dir false) }
  else afterFit

/-- Which dataset-adapter classes exist. -/
inductive AdapterKind where
  | mnist
  | cifar10
deriving DecidableEq

/-- The dataset-adapter classes defined by the executable top-level code of
train.py.  Every line of the `MNISTDataModule` block (lines 57-93) starts
with a comment marker, as does its usage block (lines 140-151), so the
script defines only `CIFAR10DataModule` (lines 159-195). -/
def definedAdapters : List AdapterKind := [AdapterKind.cifar10]

/-- A record of one `self.log(...)` call: metric name, scalar value, and
the `prog_bar` and `sync_dist` keyword flags passed by the source. -/
structure LogRecord where
  name : String
  value : ℚ
  prog_bar : Bool
  sync_dist : Bool
deriving DecidableEq

/-- `torch.argmax` over one row of scores: the index of the maximum entry
(first occurrence).  `best` is the running argmax, `bv` its value, `i` the
index of the head of the remaining list. -/
def argmaxAux : List ℚ → Nat → Nat → ℚ → Nat
  | [], _, best, _ => best
  | x :: xs, i, best, bv =>
    if bv < x then argmaxAux xs (i + 1) i x else argmaxAux xs (i + 1) best bv

/-- `torch.argmax(v)` for one row `v`; 0 on the empty row. -/
def argmax : List ℚ → Nat
  | [] => 0
  | x :: xs => argmaxAux xs 1 0 x

/-- `F.nll_loss(input, target)` with the default mean reduction: the mean
over the batch of the negated entry of row `i` at index `target i`. -/
def nll_loss (input : List (List ℚ)) (target : List Nat) : ℚ :=
  -((input.zip target).map fun p => p.1.getD p.2 0).sum / target.length

/-- State of `LitModel` (train.py lines 103-132).  `model` is the resnet20
backbone built in `__init__` (external code from `resnet_cifar`, not in
this repository): an opaque map from one input sample to its per-class
score row.  `parameters` is the model's learnable parameter set, opaque
and owned by the framework. -/
structure LitModel (ι : Type) where
  model : ι → List ℚ
  parameters : List ℚ

/-- `LitModel.forward` (lines 110-112): `F.log_softmax(self.model(x),
dim=1)`.  The per-row log-softmax map is the explicit argument `ls`
(transcendental, hence abstracted; see the file header). -/
def LitModel.forward {ι : Type} (self : LitModel ι) (ls : List ℚ → List ℚ)
    (x : List ι) : List (List ℚ) :=
  (x.map self.model).map ls

/-- `LitModel.training_step` (lines 114-119): computes
`loss = F.nll_loss(self(x), y)`, logs `train_loss` with `prog_bar=True,
sync_dist=True`, and returns the loss.  The result is the returned loss
together with the issued log records. -/
def LitModel.training_step {ι : Type} (self : LitModel ι)
    (ls : List ℚ → List ℚ) (batch : List ι × List Nat) : ℚ × List LogRecord :=
  let logits := self.forward ls batch.1
  let loss := nll_loss logits batch.2
  (loss, [{ name := "train_loss", value := loss, prog_bar := true, sync_dist := true }])

/-- `LitModel.validation_step` (lines 121-128): computes the nll loss and
`acc = torch.sum(torch.argmax(logits, dim=1) == y) / len(y)` (sum of the
match indicators over the batch, divided by the batch length), and logs
`val_loss` and `val_acc` with `prog_bar=True, sync_dist=True`.  It returns
nothing; the result is the list of issued log records. -/
def LitModel.validation_step {ι : Type} (self : LitModel ι)
    (ls : List ℚ → List ℚ) (batch : List ι × List Nat) (_batch_idx : Nat) :
    List LogRecord :=
  let logits := self.forward ls batch.1
  let loss := nll_loss logits batch.2
  let acc := ((logits.zip batch.2).map
      fun p => if argmax p.1 = p.2 then (1 : ℚ) else 0).sum / batch.2.length
  [{ name := "val_loss", value := loss, prog_bar := true, sync_dist := true },
   { name := "val_acc", value := acc, prog_bar := true, sync_dist := true }]

/-- A `torch.optim` optimizer as constructed by this script: its kind, the
parameter set it was given, and the learning-rate argument (`none` when the
constructor call passes no learning rate). -/
structure Optimizer where
  kind : String
  params : List ℚ
  lr : Option ℚ

/-- The shapes `configure_optimizers` may return to lightning: a single
optimizer, or a list of optimizers. -/
inductive OptimizerConfig where
  | single (o : Optimizer)
  | several (os : List Optimizer)

/-- `LitModel.configure_optimizers` (lines 130-132):
`torch.optim.Adam(self.parameters())` — a single Adam optimizer over all
of the model's parameters, with no learning-rate argument passed. -/
def LitModel.configure_optimizers {ι : Type} (self : LitModel ι) :
    OptimizerConfig :=
  OptimizerConfig.single { kind := "Adam", params := self.parameters, lr := none }

/-- Line 205: `dm = CIFAR10DataModule()` — constructed with no arguments,
so `data_dir` takes the `__init__` default `"./"` whatever the process
environment holds. -/
def dm (_env : String → Option String) : CIFAR10DataModule :=
  CIFAR10DataModule.init

/-- Spec reading of the validation accuracy: the number of batch elements
whose argmax over the class dimension of the model output equals the
label, divided by the batch length. -/
def accuracy_spec (logits : List (List ℚ)) (y : List Nat) : ℚ :=
  (((logits.zip y).countP fun p => argmax p.1 == p.2 : Nat) : ℚ) / y.length

/-! ### Library-level lemmas about splits and batching -/

theorem chunks_nil {α : Type} (bs : Nat) : chunks bs ([] : List α) = [] := by
  simp [chunks]

theorem chunks_cons {α : Type} {bs : Nat} (hbs : bs ≠ 0) (a : α) (l : List α) :
    chunks bs (a :: l) = (a :: l.take (bs - 1)) :: chunks bs (l.drop (bs - 1)) := by
  rw [chunks]
  simp [hbs]

theorem chunks_flatten_fuel {α : Type} {bs : Nat} (hbs : bs ≠ 0) :
    ∀ (fuel : Nat) (l : List α), l.length ≤ fuel → (chunks bs l).flatten = l := by
  intro fuel
  induction fuel with
  | zero =>
    intro l hl
    cases l with
    | nil => simp [chunks_nil]
    | cons a t => simp only [List.length_cons] at hl; omega
  | succ n ih =>
    intro l hl
    cases l with
    | nil => simp [chunks_nil]
    | cons a t =>
      have ht : t.length ≤ n := by
        simp only [List.length_cons] at hl
        omega
      have hdrop : (t.drop (bs - 1)).length ≤ n := by
        simp only [List.length_drop]
        omega
      rw [chunks_cons hbs, List.flatten_cons, ih (t.drop (bs - 1)) hdrop]
      simp [List.cons_append, List.take_append_drop]

/-- With a positive batch size, concatenating the yielded batches gives back
the underlying list: batching loses and reorders nothing. -/
theorem chunks_flatten {α : Type} {bs : Nat} (hbs : bs ≠ 0) (l : List α) :
    (chunks bs l).flatten = l :=
  chunks_flatten_fuel hbs l.length l le_rfl

theorem chunks_mem_length_fuel {α : Type} {bs : Nat} (hbs : bs ≠ 0) :
    ∀ (fuel : Nat) (l : List α), l.length ≤ fuel →
      ∀ c ∈ chunks bs l, 0 < c.length ∧ c.length ≤ bs := by
  intro fuel
  induction fuel with
  | zero =>
    intro l hl c hc
    cases l with
    | nil => simp [chunks_nil] at hc
    | cons a t => simp only [List.length_cons] at hl; omega
  | succ n ih =>
    intro l hl c hc
    cases l with
    | nil => simp [chunks_nil] at hc
    | cons a t =>
      have ht : t.length ≤ n := by
        simp only [List.length_cons] at hl
        omega
      rw [chunks_cons hbs] at hc
      rcases List.mem_cons.mp hc with h | h
      · subst h
        refine ⟨by simp, ?_⟩
        simp only [List.length_cons, List.length_take]
        omega
      · exact ih (t.drop (bs - 1)) (by simp only [List.length_drop]; omega) c h

/-- Every batch yielded with positive batch size `bs` is nonempty and has at
most `bs` elements. -/
theorem chunks_mem_length {α : Type} {bs : Nat} (hbs : bs ≠ 0) (l : List α) :
    ∀ c ∈ chunks bs l, 0 < c.length ∧ c.length ≤ bs :=
  chunks_mem_length_fuel hbs l.length l le_rfl

theorem chunks_dropLast_fuel {α : Type} {bs : Nat} (hbs : bs ≠ 0) :
    ∀ (fuel : Nat) (l : List α), l.length ≤ fuel →
      ∀ c ∈ (chunks bs l).dropLast, c.length = bs := by
  intro fuel
  induction fuel with
  | zero =>
    intro l hl c hc
    cases l with
    | nil => simp [chunks_nil] at hc
    | cons a t => simp only [List.length_cons] at hl; omega
  | succ n ih =>
    intro l hl c hc
    cases l with
    | nil => simp [chunks_nil] at hc
    | cons a t =>
      have ht : t.length ≤ n := by
        simp only [List.length_cons] at hl
        omega
      rw [chunks_cons hbs] at hc
      by_cases hd : t.drop (bs - 1) = []
      · rw [hd, chunks_nil] at hc
        simp at hc
      · have hrest : chunks bs (t.drop (bs - 1)) ≠ [] := by
          cases hdt : t.drop (bs - 1) with
          | nil => exact absurd hdt hd
          | cons b u => rw [chunks_cons hbs]; exact List.cons_ne_nil _ _
        rw [List.dropLast_cons_of_ne_nil hrest] at hc
        rcases List.mem_cons.mp hc with h | h
        · subst h
          have hlen : bs - 1 ≤ t.length := by
            by_contra hcon
            push_neg at hcon
            exact hd (List.drop_eq_nil_of_le (le_of_lt hcon))
          simp only [List.length_cons, List.length_take]
          omega
        · exact ih (t.drop (bs - 1)) (by simp only [List.length_drop]; omega) c h

/-- Every batch except the last one has exactly `bs` elements. -/
theorem chunks_dropLast_length {α : Type} {bs : Nat} (hbs : bs ≠ 0) (l : List α) :
    ∀ c ∈ (chunks bs l).dropLast, c.length = bs :=
  chunks_dropLast_fuel hbs l.length l le_rfl

theorem flatten_length_of_all_eq (bs : Nat) (L : List (List Nat))
    (h : ∀ c ∈ L, c.length = bs) : L.flatten.length = L.length * bs := by
  induction L with
  | nil => simp
  | cons c L ih =>
    have hc : c.length = bs := h c (List.mem_cons_self c L)
    have hL : ∀ d ∈ L, d.length = bs := fun d hd => h d (List.mem_cons_of_mem c hd)
    rw [List.flatten_cons, List.length_append, hc, ih hL, List.length_cons]
    ring

/-- Cutting a permutation of `List.range n` at `a` (with `a + b = n`) gives
pieces of lengths exactly `a` and `b` that share no element. -/
theorem perm_split_partition (a b : Nat) {n : Nat} {perm : List Nat}
    (h : perm.Perm (List.range n)) (hab : a + b = n) :
    (perm.take a).length = a ∧ ((perm.drop a).take b).length = b ∧
      List.Disjoint (perm.take a) ((perm.drop a).take b) := by
  have hlen : perm.length = n := by simpa using h.length_eq
  have hnodup : perm.Nodup := h.nodup_iff.mpr (List.nodup_range n)
  refine ⟨?_, ?_, ?_⟩
  · simp only [List.length_take, hlen]
    omega
  · simp only [List.length_take, List.length_drop, hlen]
    omega
  · intro x hx hy
    exact List.disjoint_take_drop hnodup le_rfl hx (List.mem_of_mem_take hy)

/-- For either fit-like stage, `setup` assigns `cifar_train` to the first 45000
entries of the drawn permutation and `cifar_val` to the next 5000. -/
theorem setup_fit_assigns (self : CIFAR10DataModule) (stage : Option String)
    (hstage : stage = some "fit" ∨ stage = none) (perm : List Nat) :
    (self.setup stage perm).cifar_train = some (perm.take 45000) ∧
    (self.setup stage perm).cifar_val = some ((perm.drop 45000).take 5000) := by
  rcases hstage with h | h <;> subst h <;>
    simp [CIFAR10DataModule.setup, random_split, splitChunks]

theorem sum_ind_eq_countP (L : List (List ℚ × Nat)) :
    (L.map fun p => if argmax p.1 = p.2 then (1 : ℚ) else 0).sum
      = ((L.countP fun p => argmax p.1 == p.2 : Nat) : ℚ) := by
  induction L with
  | nil => simp
  | cons a L ih =>
    by_cases h : argmax a.1 = a.2
    · simp only [List.map_cons, List.sum_cons, List.countP_cons, h, ih]
      simp [h]
      ring
    · simp [List.countP_cons, h, ih]

/-! ### Claim theorems -/

/-- C1: for the CIFAR10 adapter, `setup` with stage `"fit"` (or `None`)
splits the 50000-element full training set into a 45000-element train
subset and a 5000-element validation subset; the two subsets are disjoint
and their sizes sum to the full dataset size 50000. -/
theorem cifar_setup_fit_partition (d : String) (stage : Option String)
    (hstage : stage = some "fit" ∨ stage = none)
    (perm : List Nat) (hperm : perm.Perm (List.range 50000)) :
    (CIFAR10.load d true).length = 50000 ∧
    ∃ tr va,
      ((CIFAR10DataModule.init d).setup stage perm).cifar_train = some tr ∧
      ((CIFAR10DataModule.init d).setup stage perm).cifar_val = some va ∧
      tr.length = 45000 ∧ va.length = 5000 ∧ List.Disjoint tr va ∧
      tr.length + va.length = (CIFAR10.load d true).length := by
  obtain ⟨h1, h2, h3⟩ := perm_split_partition 45000 5000 hperm (by norm_num)
  obtain ⟨htr, hva⟩ := setup_fit_assigns (CIFAR10DataModule.init d) stage hstage perm
  have hload : (CIFAR10.load d true).length = 50000 := by
    simp [CIFAR10.load, CIFAR10.size]
  exact ⟨hload, _, _, htr, hva, h1, h2, h3, by rw [h1, h2, hload]⟩

theorem cifar_setup_fit_partition_witness :
    ((some "fit" = some "fit" ∨ (some "fit" : Option String) = none) ∧
      (List.range 50000).Perm (List.range 50000)) ∧
    ((CIFAR10.load "./" true).length = 50000 ∧
    ∃ tr va,
      ((CIFAR10DataModule.init "./").setup (some "fit") (List.range 50000)).cifar_train
        = some tr ∧
      ((CIFAR10DataModule.init "./").setup (some "fit") (List.range 50000)).cifar_val
        = some va ∧
      tr.length = 45000 ∧ va.length = 5000 ∧ List.Disjoint tr va ∧
      tr.length + va.length = (CIFAR10.load "./" true).length) :=
  ⟨⟨Or.inl rfl, List.Perm.refl _⟩,
    cifar_setup_fit_partition "./" (some "fit") (Or.inl rfl)
      (List.range 50000) (List.Perm.refl _)⟩

/-- C8: `prepare_data` downloads both the train and the test portion under
`self.data_dir` and assigns no attribute: the datamodule state after the
call is identical to the state before it, for every state. -/
theorem prepare_data_frame (st : CIFAR10DataModule) :
    (st.prepare_data).1 = st ∧
    (st.prepare_data).2 =
      [{ root := st.data_dir, train := true },
       { root := st.data_dir, train := false }] :=
  ⟨rfl, rfl⟩

/-- C9: `setup` is stage-selective: stage `"fit"` assigns only the train and
validation subsets (the test subset stays unassigned), stage `"test"`
assigns only the test subset (train and validation stay unassigned), and
stage `None` assigns all three. -/
theorem setup_stage_selective (d : String) (perm : List Nat) :
    (((CIFAR10DataModule.init d).setup (some "fit") perm).cifar_train.isSome = true ∧
     ((CIFAR10DataModule.init d).setup (some "fit") perm).cifar_val.isSome = true ∧
     ((CIFAR10DataModule.init d).setup (some "fit") perm).cifar_test = none) ∧
    (((CIFAR10DataModule.init d).setup (some "test") perm).cifar_train = none ∧
     ((CIFAR10DataModule.init d).setup (some "test") perm).cifar_val = none ∧
     ((CIFAR10DataModule.init d).setup (some "test") perm).cifar_test.isSome = true) ∧
    (((CIFAR10DataModule.init d).setup none perm).cifar_train.isSome = true ∧
     ((CIFAR10DataModule.init d).setup none perm).cifar_val.isSome = true ∧
     ((CIFAR10DataModule.init d).setup none perm).cifar_test.isSome = true) := by
  refine ⟨⟨?_, ?_, ?_⟩, ⟨?_, ?_, ?_⟩, ⟨?_, ?_, ?_⟩⟩ <;>
    simp [CIFAR10DataModule.setup, CIFAR10DataModule.init, random_split, splitChunks]

/-- C10: every dataloader the datamodule constructs has shuffling off;
its batch sequence does not depend on the random order a shuffling loader
would draw, so two iteration passes yield the same sequence of batches,
and concatenating the batches returns the wrapped subset in index order. -/
theorem dataloaders_no_shuffle (st : CIFAR10DataModule) (cuda : Bool)
    (dl : DataLoader)
    (hdl : dl ∈ st.train_dataloader cuda ∨ dl ∈ st.val_dataloader cuda ∨
      dl ∈ st.test_dataloader cuda) :
    dl.shuffle = false ∧
    (∀ o₁ o₂, dl.batches o₁ = dl.batches o₂) ∧
    (∀ o, (dl.batches o).flatten = dl.dataset) := by
  have hbs : BATCH_SIZE cuda ≠ 0 := by cases cuda <;> simp [BATCH_SIZE]
  have key : ∀ ds : List Nat,
      dl = { dataset := ds, batch_size := BATCH_SIZE cuda, shuffle := false } →
      dl.shuffle = false ∧
      (∀ o₁ o₂, dl.batches o₁ = dl.batches o₂) ∧
      (∀ o, (dl.batches o).flatten = dl.dataset) := by
    intro ds h
    subst h
    exact ⟨rfl, fun o₁ o₂ => rfl, fun o => chunks_flatten hbs ds⟩
  rcases hdl with h | h | h
  · simp only [CIFAR10DataModule.train_dataloader, Option.mem_def,
      Option.map_eq_some'] at h
    obtain ⟨ds, -, hds⟩ := h
    exact key ds hds.symm
  · simp only [CIFAR10DataModule.val_dataloader, Option.mem_def,
      Option.map_eq_some'] at h
    obtain ⟨ds, -, hds⟩ := h
    exact key ds hds.symm
  · simp only [CIFAR10DataModule.test_dataloader, Option.mem_def,
      Option.map_eq_some'] at h
    obtain ⟨ds, -, hds⟩ := h
    exact key ds hds.symm

theorem dataloaders_no_shuffle_witness :
    (({ dataset := [7, 8, 9], batch_size := 64, shuffle := false } : DataLoader) ∈
        ({ data_dir := "./", dims := (3, 32, 32), num_classes := 10,
           cifar_train := some [7, 8, 9] } : CIFAR10DataModule).train_dataloader false ∨
      ({ dataset := [7, 8, 9], batch_size := 64, shuffle := false } : DataLoader) ∈
        ({ data_dir := "./", dims := (3, 32, 32), num_classes := 10,
           cifar_train := some [7, 8, 9] } : CIFAR10DataModule).val_dataloader false ∨
      ({ dataset := [7, 8, 9], batch_size := 64, shuffle := false } : DataLoader) ∈
        ({ data_dir := "./", dims := (3, 32, 32), num_classes := 10,
           cifar_train := some [7, 8, 9] } : CIFAR10DataModule).test_dataloader false) ∧
    (({ dataset := [7, 8, 9], batch_size := 64, shuffle := false } : DataLoader).shuffle
        = false ∧
      (∀ o₁ o₂, ({ dataset := [7, 8, 9], batch_size := 64, shuffle := false } :
          DataLoader).batches o₁ =
        ({ dataset := [7, 8, 9], batch_size := 64, shuffle := false } :
          DataLoader).batches o₂) ∧
      (∀ o, (({ dataset := [7, 8, 9], batch_size := 64, shuffle := false } :
          DataLoader).batches o).flatten =
        ({ dataset := [7, 8, 9], batch_size := 64, shuffle := false } :
          DataLoader).dataset)) :=
  ⟨Or.inl (Option.mem_def.mpr rfl),
    dataloaders_no_shuffle
      { data_dir := "./", dims := (3, 32, 32), num_classes := 10,
        cifar_train := some [7, 8, 9] } false
      { dataset := [7, 8, 9], batch_size := 64, shuffle := false }
      (Or.inl (Option.mem_def.mpr rfl))⟩

/-- C3 counterexample: without CUDA the batch size is 64; the train
dataloader produced by a fit `setup` wraps a 45000-element subset, and
since 64 does not divide 45000 not every yielded batch can have exactly 64
elements - the final batch is shorter (45000 mod 64 = 8 elements). -/
theorem train_batches_not_all_full :
    ∃ dl, dl ∈ ((CIFAR10DataModule.init "./").setup (some "fit")
        (List.range 50000)).train_dataloader false ∧
      BATCH_SIZE false = 64 ∧
      ¬ (∀ b ∈ dl.batches [], b.length = 64) := by
  refine ⟨{ dataset := (List.range 50000).take 45000, batch_size := 64,
            shuffle := false }, ?_, rfl, ?_⟩
  · have h := (setup_fit_assigns (CIFAR10DataModule.init "./") (some "fit")
      (Or.inl rfl) (List.range 50000)).1
    rw [CIFAR10DataModule.train_dataloader, h]
    exact Option.mem_def.mpr rfl
  · intro hall
    have hall' : ∀ b ∈ chunks 64 ((List.range 50000).take 45000), b.length = 64 := by
      intro b hb
      exact hall b (by simpa [DataLoader.batches] using hb)
    have hcount := flatten_length_of_all_eq 64 _ hall'
    rw [chunks_flatten (show (64 : Nat) ≠ 0 by norm_num)
        ((List.range 50000).take 45000)] at hcount
    have hlen : ((List.range 50000).take 45000).length = 45000 := by
      simp
    rw [hlen] at hcount
    omega

/-- C3 amended: all three dataloaders use the one constant batch size
`BATCH_SIZE` (256 when CUDA is available, 64 otherwise); every yielded
batch except the final one has exactly `BATCH_SIZE` elements, and every
batch is nonempty with at most `BATCH_SIZE` elements (the final batch is
shorter whenever the batch size does not divide the subset size). -/
theorem dataloader_batch_sizes (st : CIFAR10DataModule) (cuda : Bool)
    (dl : DataLoader)
    (hdl : dl ∈ st.train_dataloader cuda ∨ dl ∈ st.val_dataloader cuda ∨
      dl ∈ st.test_dataloader cuda) :
    BATCH_SIZE cuda = (if cuda then 256 else 64) ∧
    dl.batch_size = BATCH_SIZE cuda ∧
    (∀ o, ∀ c ∈ (dl.batches o).dropLast, c.length = BATCH_SIZE cuda) ∧
    (∀ o, ∀ c ∈ dl.batches o, 0 < c.length ∧ c.length ≤ BATCH_SIZE cuda) := by
  have hbs : BATCH_SIZE cuda ≠ 0 := by cases cuda <;> simp [BATCH_SIZE]
  have key : ∀ ds : List Nat,
      dl = { dataset := ds, batch_size := BATCH_SIZE cuda, shuffle := false } →
      BATCH_SIZE cuda = (if cuda then 256 else 64) ∧
      dl.batch_size = BATCH_SIZE cuda ∧
      (∀ o, ∀ c ∈ (dl.batches o).dropLast, c.length = BATCH_SIZE cuda) ∧
      (∀ o, ∀ c ∈ dl.batches o, 0 < c.length ∧ c.length ≤ BATCH_SIZE cuda) := by
    intro ds h
    subst h
    refine ⟨rfl, rfl, fun o c hc => ?_, fun o c hc => ?_⟩
    · exact chunks_dropLast_length hbs ds c hc
    · exact chunks_mem_length hbs ds c hc
  rcases hdl with h | h | h
  · simp only [CIFAR10DataModule.train_dataloader, Option.mem_def,
      Option.map_eq_some'] at h
    obtain ⟨ds, -, hds⟩ := h
    exact key ds hds.symm
  · simp only [CIFAR10DataModule.val_dataloader, Option.mem_def,
      Option.map_eq_some'] at h
    obtain ⟨ds, -, hds⟩ := h
    exact key ds hds.symm
  · simp only [CIFAR10DataModule.test_dataloader, Option.mem_def,
      Option.map_eq_some'] at h
    obtain ⟨ds, -, hds⟩ := h
    exact key ds hds.symm

theorem dataloader_batch_sizes_witness :
    (({ dataset := [1, 2, 3], batch_size := 64, shuffle := false } : DataLoader) ∈
        ({ data_dir := "./", dims := (3, 32, 32), num_classes := 10,
           cifar_val := some [1, 2, 3] } : CIFAR10DataModule).train_dataloader false ∨
      ({ dataset := [1, 2, 3], batch_size := 64, shuffle := false } : DataLoader) ∈
        ({ data_dir := "./", dims := (3, 32, 32), num_classes := 10,
           cifar_val := some [1, 2, 3] } : CIFAR10DataModule).val_dataloader false ∨
      ({ dataset := [1, 2, 3], batch_size := 64, shuffle := false } : DataLoader) ∈
        ({ data_dir := "./", dims := (3, 32, 32), num_classes := 10,
           cifar_val := some [1, 2, 3] } : CIFAR10DataModule).test_dataloader false) ∧
    (BATCH_SIZE false = (if false then 256 else 64) ∧
     ({ dataset := [1, 2, 3], batch_size := 64, shuffle := false } :
        DataLoader).batch_size = BATCH_SIZE false ∧
     (∀ o, ∀ c ∈ (({ dataset := [1, 2, 3], batch_size := 64, shuffle := false } :
        DataLoader).batches o).dropLast, c.length = BATCH_SIZE false) ∧
     (∀ o, ∀ c ∈ ({ dataset := [1, 2, 3], batch_size := 64, shuffle := false } :
        DataLoader).batches o, 0 < c.length ∧ c.length ≤ BATCH_SIZE false)) :=
  ⟨Or.inr (Or.inl (Option.mem_def.mpr rfl)),
    dataloader_batch_sizes
      { data_dir := "./", dims := (3, 32, 32), num_classes := 10,
        cifar_val := some [1, 2, 3] } false
      { dataset := [1, 2, 3], batch_size := 64, shuffle := false }
      (Or.inr (Or.inl (Option.mem_def.mpr rfl)))⟩

/-- For either fit-like stage, the commented-out MNIST `setup` assigns
`mnist_train` to the first 55000 entries of the drawn permutation and
`mnist_val` to the next 5000. -/
theorem mnist_setup_fit_assigns (self : MNISTDataModule) (stage : Option String)
    (hstage : stage = some "fit" ∨ stage = none) (perm : List Nat) :
    (self.setup stage perm).mnist_train = some (perm.take 55000) ∧
    (self.setup stage perm).mnist_val = some ((perm.drop 55000).take 5000) := by
  rcases hstage with h | h <;> subst h <;>
    simp [MNISTDataModule.setup, random_split, splitChunks]

/-- C2 counterexample: the executable script defines exactly one dataset
adapter.  Every line of the MNISTDataModule block (train.py lines 57-93)
is commented out, so the program does not provide an MNIST adapter and the
model cannot be trained on MNIST without editing the file. -/
theorem mnist_adapter_not_defined :
    AdapterKind.mnist ∉ definedAdapters ∧ definedAdapters.length = 1 := by
  refine ⟨?_, rfl⟩
  decide

/-- C2 amended: the executable script defines a single dataset-preparation
adapter, the CIFAR10 one, on which the model is trained; the MNIST adapter
exists only as commented-out code.  The split arithmetic is as stated for
both: the commented-out MNIST adapter splits its 60000-element training
set as 55000+5000, and the CIFAR10 adapter splits its 50000-element
training set as 45000+5000. -/
theorem adapters_amended (p q : List Nat)
    (hp : p.Perm (List.range 60000)) (hq : q.Perm (List.range 50000)) :
    definedAdapters = [AdapterKind.cifar10] ∧
    (∀ env : String → Option String, ∃ tr va,
      ((MNISTDataModule.init env).setup (some "fit") p).mnist_train = some tr ∧
      ((MNISTDataModule.init env).setup (some "fit") p).mnist_val = some va ∧
      tr.length = 55000 ∧ va.length = 5000 ∧
      tr.length + va.length
        = (MNIST.load (MNISTDataModule.init env).data_dir true).length) ∧
    (∀ d : String, ∃ tr va,
      ((CIFAR10DataModule.init d).setup (some "fit") q).cifar_train = some tr ∧
      ((CIFAR10DataModule.init d).setup (some "fit") q).cifar_val = some va ∧
      tr.length = 45000 ∧ va.length = 5000 ∧
      tr.length + va.length = (CIFAR10.load d true).length) := by
  obtain ⟨hp1, hp2, -⟩ := perm_split_partition 55000 5000 hp (by norm_num)
  obtain ⟨hq1, hq2, -⟩ := perm_split_partition 45000 5000 hq (by norm_num)
  refine ⟨rfl, fun env => ?_, fun d => ?_⟩
  · obtain ⟨htr, hva⟩ := mnist_setup_fit_assigns (MNISTDataModule.init env)
      (some "fit") (Or.inl rfl) p
    refine ⟨_, _, htr, hva, hp1, hp2, ?_⟩
    rw [hp1, hp2]
    simp [MNIST.load, MNIST.size]
  · obtain ⟨htr, hva⟩ := setup_fit_assigns (CIFAR10DataModule.init d)
      (some "fit") (Or.inl rfl) q
    refine ⟨_, _, htr, hva, hq1, hq2, ?_⟩
    rw [hq1, hq2]
    simp [CIFAR10.load, CIFAR10.size]

theorem adapters_amended_witness :
    ((List.range 60000).Perm (List.range 60000) ∧
      (List.range 50000).Perm (List.range 50000)) ∧
    (definedAdapters = [AdapterKind.cifar10] ∧
    (∀ env : String → Option String, ∃ tr va,
      ((MNISTDataModule.init env).setup (some "fit") (List.range 60000)).mnist_train
        = some tr ∧
      ((MNISTDataModule.init env).setup (some "fit") (List.range 60000)).mnist_val
        = some va ∧
      tr.length = 55000 ∧ va.length = 5000 ∧
      tr.length + va.length
        = (MNIST.load (MNISTDataModule.init env).data_dir true).length) ∧
    (∀ d : String, ∃ tr va,
      ((CIFAR10DataModule.init d).setup (some "fit") (List.range 50000)).cifar_train
        = some tr ∧
      ((CIFAR10DataModule.init d).setup (some "fit") (List.range 50000)).cifar_val
        = some va ∧
      tr.length = 45000 ∧ va.length = 5000 ∧
      tr.length + va.length = (CIFAR10.load d true).length)) :=
  ⟨⟨List.Perm.refl _, List.Perm.refl _⟩,
    adapters_amended (List.range 60000) (List.range 50000)
      (List.Perm.refl _) (List.Perm.refl _)⟩

/-- C4 counterexample: with the environment variable PATH_DATASETS set to
"/data", the module constant reads "/data", yet the dataset adapter the
script constructs (line 205) keeps its own `__init__` default "./" and
issues both of its downloads under "./", not under the supplied path. -/
theorem path_datasets_ignored :
    PATH_DATASETS (fun s => if s = "PATH_DATASETS" then some "/data" else none)
      = "/data" ∧
    (dm (fun s => if s = "PATH_DATASETS" then some "/data" else none)).data_dir
      = "./" ∧
    ("./" : String) ≠ "/data" ∧
    ((dm (fun s => if s = "PATH_DATASETS" then some "/data" else none)).prepare_data).2
      = [{ root := "./", train := true }, { root := "./", train := false }] := by
  refine ⟨rfl, rfl, ?_, rfl⟩
  decide

/-- C4 amended: the script reads PATH_DATASETS into a module constant
(falling back to "." when unset), but the CIFAR10 adapter it constructs
ignores that constant: for every environment, the adapter's storage path
is the `__init__` default "./" and both of its downloads are issued under
"./".  Only the commented-out MNIST adapter would have used the constant. -/
theorem data_dir_default_used (env : String → Option String) :
    (dm env).data_dir = "./" ∧
    ((dm env).prepare_data).2.map Download.root = ["./", "./"] ∧
    (env "PATH_DATASETS" = none → PATH_DATASETS env = ".") ∧
    (∀ v, env "PATH_DATASETS" = some v → PATH_DATASETS env = v) := by
  refine ⟨rfl, rfl, fun h => ?_, fun v h => ?_⟩
  · simp [PATH_DATASETS, h]
  · simp [PATH_DATASETS, h]

theorem data_dir_default_used_witness :
    (dm (fun _ => none)).data_dir = "./" ∧
    ((dm (fun _ => none)).prepare_data).2.map Download.root = ["./", "./"] ∧
    ((fun _ : String => (none : Option String)) "PATH_DATASETS" = none →
      PATH_DATASETS (fun _ => none) = ".") ∧
    (∀ v, (fun _ : String => (none : Option String)) "PATH_DATASETS" = some v →
      PATH_DATASETS (fun _ => none) = v) :=
  data_dir_default_used (fun _ => none)

/-- C5 counterexample: the training step computes and logs only a loss: at
a concrete batch, the metrics it emits are exactly ["train_loss"], so no
accuracy metric is computed by this per-batch step. -/
theorem training_step_no_accuracy :
    (((LitModel.mk (fun _ : Unit => [(1 : ℚ)]) []).training_step
        (fun r => r) ([()], [0])).2).map LogRecord.name = ["train_loss"] ∧
    "val_acc" ∉ (((LitModel.mk (fun _ : Unit => [(1 : ℚ)]) []).training_step
        (fun r => r) ([()], [0])).2).map LogRecord.name := by
  refine ⟨rfl, ?_⟩
  decide

/-- C5 amended: training_step computes the negative-log-likelihood loss of
the log-softmax outputs against the labels and logs it as its only metric
(no accuracy); validation_step computes that same loss together with the
accuracy, and the logged accuracy equals the number of batch elements
whose argmax over the class dimension of the model output equals the
label, divided by the batch length. -/
theorem step_metrics {ι : Type} (m : LitModel ι) (ls : List ℚ → List ℚ)
    (x : List ι) (y : List Nat) (i : Nat) :
    (m.training_step ls (x, y)).1 = nll_loss (m.forward ls x) y ∧
    ((m.training_step ls (x, y)).2).map LogRecord.name = ["train_loss"] ∧
    ((m.training_step ls (x, y)).2).map LogRecord.value
      = [nll_loss (m.forward ls x) y] ∧
    (m.validation_step ls (x, y) i).map LogRecord.name = ["val_loss", "val_acc"] ∧
    (m.validation_step ls (x, y) i).map LogRecord.value
      = [nll_loss (m.forward ls x) y, accuracy_spec (m.forward ls x) y] := by
  refine ⟨rfl, rfl, rfl, rfl, ?_⟩
  have hacc : ((((m.forward ls x).zip y).map
        fun p => if argmax p.1 = p.2 then (1 : ℚ) else 0).sum) / (y.length : ℚ)
      = accuracy_spec (m.forward ls x) y := by
    rw [sum_ind_eq_countP]
    rfl
  simp only [LitModel.validation_step, List.map_cons, List.map_nil]
  rw [← hacc]

/-- C6: configure_optimizers returns exactly one optimizer - an Adam
optimizer over all of the model's parameters - and the constructor call
passes no explicit learning-rate argument. -/
theorem configure_optimizers_single_adam {ι : Type} (m : LitModel ι) :
    ∃ o : Optimizer, m.configure_optimizers = OptimizerConfig.single o ∧
      o.kind = "Adam" ∧ o.params = m.parameters ∧ o.lr = none :=
  ⟨{ kind := "Adam", params := m.parameters, lr := none }, rfl, rfl, rfl, rfl⟩

/-- C7: the metrics the model adapter logs are exactly train_loss (in
training_step) and val_loss, val_acc (in validation_step), and every one
of these log records carries sync_dist = true.  The step embeddings are
pure functions of their inputs: the source uses no other
concurrency-related mechanism (no threads, locks, or cancellation). -/
theorem log_records_sync_dist {ι : Type} (m : LitModel ι) (ls : List ℚ → List ℚ)
    (batch : List ι × List Nat) (i : Nat) :
    ((m.training_step ls batch).2).map LogRecord.name = ["train_loss"] ∧
    (m.validation_step ls batch i).map LogRecord.name = ["val_loss", "val_acc"] ∧
    (((m.training_step ls batch).2 ++ m.validation_step ls batch i).all
        LogRecord.sync_dist) = true :=
  ⟨rfl, rfl, rfl⟩
